import Mathlib

/-!
Verification of the nbinteract-core package (src/packages/nbinteract-core/src):
a shallow embedding of `util.js` and `JupyterCon.js` in Lean 4.

JavaScript strings are modelled as `List Char`; JS `async` functions that can
throw are modelled with `Except`, with their awaited remote operations passed
in as oracle parameters; observable side effects (logging, `localStorage`
writes, `setTimeout` reschedules, remote calls) are recorded in event traces.
-/

namespace NbInteract

/-! ### JavaScript string primitives used by util.js -/

/-- Character-list prefix test (Boolean), auxiliary for `jsIncludes`. -/
def isPrefixOfChars : List Char → List Char → Bool
  | [], _ => true
  | _ :: _, [] => false
  | a :: as, b :: bs => a == b && isPrefixOfChars as bs

/-- Models JS `s.includes(needle)` (contiguous-substring test):
`jsIncludes needle s` scans every suffix of `s` for `needle` as a prefix. -/
def jsIncludes (needle : List Char) : List Char → Bool
  | [] => isPrefixOfChars needle []
  | c :: cs => isPrefixOfChars needle (c :: cs) || jsIncludes needle cs

/-- Accumulator-style worker for `jsSplit`: `acc` holds the (reversed) chunk
read so far. -/
def jsSplitAux (sep : Char) : List Char → List Char → List (List Char)
  | [], acc => [acc.reverse]
  | c :: cs, acc =>
    if c = sep then acc.reverse :: jsSplitAux sep cs []
    else jsSplitAux sep cs (c :: acc)

/-- Models JS `s.split(sep)` for a one-character separator string. -/
def jsSplit (sep : Char) (s : List Char) : List (List Char) :=
  jsSplitAux sep s []

/-- Models JS `arr.join(sep)` for a one-character separator string. -/
def jsJoin (sep : Char) : List (List Char) → List Char
  | [] => []
  | [p] => p
  | p :: q :: ps => p ++ sep :: jsJoin sep (q :: ps)

/-- `baseToWsUrl` from util.js lines 10-15, translated clause by clause:
`(baseUrl.includes('localhost') ? 'ws:' : 'wss:') +
 baseUrl.split(':').slice(1).join(':')`. -/
def baseToWsUrl (baseUrl : List Char) : List Char :=
  (if jsIncludes "localhost".toList baseUrl then "ws:".toList else "wss:".toList) ++
    jsJoin ':' ((jsSplit ':' baseUrl).drop 1)

/-! ### split/join lemmas -/

theorem jsSplitAux_ne_nil (sep : Char) (l acc : List Char) :
    jsSplitAux sep l acc ≠ [] := by
  induction l generalizing acc with
  | nil => simp [jsSplitAux]
  | cons c cs ih =>
    by_cases h : c = sep <;> simp [jsSplitAux, h, ih]

theorem jsJoin_jsSplitAux (sep : Char) (l acc : List Char) :
    jsJoin sep (jsSplitAux sep l acc) = acc.reverse ++ l := by
  induction l generalizing acc with
  | nil => simp [jsSplitAux, jsJoin]
  | cons c cs ih =>
    by_cases h : c = sep
    · subst h
      obtain ⟨q, qs, hq⟩ : ∃ q qs, jsSplitAux c cs [] = q :: qs := by
        cases hx : jsSplitAux c cs [] with
        | nil => exact absurd hx (jsSplitAux_ne_nil c cs [])
        | cons q qs => exact ⟨q, qs, rfl⟩
      have ihc := ih ([] : List Char)
      rw [hq] at ihc
      simp only [List.reverse_nil, List.nil_append] at ihc
      simp only [jsSplitAux, if_pos rfl, hq, jsJoin]
      rw [ihc]
    · simp only [jsSplitAux, if_neg h]
      rw [ih (c :: acc)]
      simp

/-- `join(sep)` is a left inverse of `split(sep)` (JS round-trip identity). -/
theorem jsJoin_jsSplit (sep : Char) (l : List Char) :
    jsJoin sep (jsSplit sep l) = l := by
  simpa using jsJoin_jsSplitAux sep l []

theorem jsSplitAux_append_sep (sep : Char) (l₁ l₂ acc : List Char)
    (h : sep ∉ l₁) :
    jsSplitAux sep (l₁ ++ sep :: l₂) acc =
      (acc.reverse ++ l₁) :: jsSplitAux sep l₂ [] := by
  induction l₁ generalizing acc with
  | nil => simp [jsSplitAux]
  | cons c cs ih =>
    have hc : c ≠ sep := fun hcs => h (hcs ▸ List.mem_cons_self c cs)
    have hcs : sep ∉ cs := fun hm => h (List.mem_cons_of_mem c hm)
    have hstep : (c :: cs) ++ sep :: l₂ = c :: (cs ++ sep :: l₂) := rfl
    rw [hstep]
    show (if c = sep then _ else jsSplitAux sep (cs ++ sep :: l₂) (c :: acc)) = _
    rw [if_neg hc, ih (c :: acc) hcs]
    simp

/-- On a URL whose first colon terminates the scheme, `split(':')` yields the
scheme followed by the split of the remainder. -/
theorem jsSplit_scheme (scheme rest : List Char) (h : ':' ∉ scheme) :
    jsSplit ':' (scheme ++ ':' :: rest) = scheme :: jsSplitAux ':' rest [] := by
  simpa [jsSplit] using jsSplitAux_append_sep ':' scheme rest [] h

/-! ### Claims C2 and C3: baseToWsUrl -/

/-- C2 counterexample: "http://example.com" contains no "localhost", yet
`baseToWsUrl` produces the encrypted `wss:` scheme, not the claimed `ws:`
counterpart of the `http` input. -/
theorem baseToWsUrl_http_nonlocalhost_gives_wss :
    jsIncludes "localhost".toList "http://example.com".toList = false ∧
    baseToWsUrl "http://example.com".toList = "wss://example.com".toList ∧
    "wss://example.com".toList ≠ "ws://example.com".toList :=
  ⟨by decide, by decide, by decide⟩

/-- C2 (amended): for every base URL `scheme ++ ":" ++ rest` (first colon ends
the scheme) not containing "localhost", `baseToWsUrl` yields the encrypted
`wss:` scheme regardless of the input scheme, keeping everything after the
scheme colon. -/
theorem baseToWsUrl_nonlocalhost_always_wss (scheme rest : List Char)
    (hs : ':' ∉ scheme)
    (hl : jsIncludes "localhost".toList (scheme ++ ':' :: rest) = false) :
    baseToWsUrl (scheme ++ ':' :: rest) = "wss:".toList ++ rest := by
  have hsplit := jsSplit_scheme scheme rest hs
  have hjoin := jsJoin_jsSplitAux ':' rest []
  simp only [List.reverse_nil, List.nil_append] at hjoin
  simp only [baseToWsUrl, hl, Bool.false_eq_true, if_false, hsplit,
    List.drop_succ_cons, List.drop_zero, hjoin]

/-- C2 amended-claim witness at a concrete http URL. -/
theorem baseToWsUrl_nonlocalhost_always_wss_witness :
    baseToWsUrl ("http".toList ++ ':' :: "//example.com".toList) =
      "wss:".toList ++ "//example.com".toList :=
  baseToWsUrl_nonlocalhost_always_wss "http".toList "//example.com".toList
    (by decide) (by decide)

/-- C3: for every base URL `scheme ++ ":" ++ rest` (first colon ends the
scheme) containing the substring "localhost", `baseToWsUrl` yields the
unencrypted `ws:` scheme — even for an https input — and keeps everything
after the scheme colon. -/
theorem baseToWsUrl_localhost_ws_keeps_rest (scheme rest : List Char)
    (hs : ':' ∉ scheme)
    (hl : jsIncludes "localhost".toList (scheme ++ ':' :: rest) = true) :
    baseToWsUrl (scheme ++ ':' :: rest) = "ws:".toList ++ rest := by
  have hsplit := jsSplit_scheme scheme rest hs
  have hjoin := jsJoin_jsSplitAux ':' rest []
  simp only [List.reverse_nil, List.nil_append] at hjoin
  simp only [baseToWsUrl, hl, if_true, hsplit,
    List.drop_succ_cons, List.drop_zero, hjoin]

/-- C3 witness: an https localhost URL downgrades to ws. -/
theorem baseToWsUrl_localhost_ws_keeps_rest_witness :
    baseToWsUrl ("https".toList ++ ':' :: "//localhost:8888".toList) =
      "ws:".toList ++ "//localhost:8888".toList :=
  baseToWsUrl_localhost_ws_keeps_rest "https".toList "//localhost:8888".toList
    (by decide) (by decide)

/-! ### Claim C10: msgToModel (util.js lines 44-56) -/

/-- The payload stored under a mime key of `msg.content.data`: the fields
`msgToModel` reads (`version_major`, `model_id`). -/
structure WidgetData where
  version_major : Int
  model_id : List Char
deriving DecidableEq

/-- A kernel message as seen by `msgToModel`: its `msg_type` (what
`KernelMessage.isDisplayDataMsg` inspects) and `content.data`, a mime-keyed
record modelled as an association list (`none` lookup = JS `undefined`). -/
structure KernelMsg where
  msg_type : List Char
  data : List (List Char × WidgetData)
deriving DecidableEq

/-- `WIDGET_MSG` from util.js line 20. -/
def WIDGET_MSG : List Char := "application/vnd.jupyter.widget-view+json".toList

/-- Models `KernelMessage.isDisplayDataMsg` from the jupyterlab services
dependency (not under src/): it tests `msg.header.msg_type === 'display_data'`. -/
def isDisplayDataMsg (msg : KernelMsg) : Bool :=
  msg.msg_type = "display_data".toList

/-- `msgToModel` from util.js lines 44-56, clause by clause: reject non
display-data messages, look up `msg.content.data[WIDGET_MSG]`, reject an
`undefined` payload or one whose `version_major !== 2`, otherwise return
`manager.get_model(widgetData.model_id)`. JS `false` is `none`; a returned
model is `some`. -/
def msgToModel {Model : Type} (msg : KernelMsg) (get_model : List Char → Model) :
    Option Model :=
  if !isDisplayDataMsg msg then none
  else
    match msg.data.lookup WIDGET_MSG with
    | none => none
    | some widgetData =>
      if widgetData.version_major ≠ 2 then none
      else some (get_model widgetData.model_id)

/-- C10: `msgToModel` returns `none` (JS `false`) exactly when the message is
not display-data, or carries no payload under `WIDGET_MSG`, or that payload's
`version_major` is not 2; when all three conditions hold it returns the
manager's model for the payload's `model_id`. -/
theorem msgToModel_widget_conditions {Model : Type}
    (msg : KernelMsg) (get_model : List Char → Model) :
    (msgToModel msg get_model = none ↔
      ¬(isDisplayDataMsg msg = true ∧
        ∃ wd, msg.data.lookup WIDGET_MSG = some wd ∧ wd.version_major = 2)) ∧
    (∀ wd, isDisplayDataMsg msg = true →
      msg.data.lookup WIDGET_MSG = some wd → wd.version_major = 2 →
      msgToModel msg get_model = some (get_model wd.model_id)) := by
  constructor
  · unfold msgToModel
    cases hdisp : isDisplayDataMsg msg with
    | false => simp [hdisp]
    | true =>
      cases hlu : msg.data.lookup WIDGET_MSG with
      | none => simp [hlu]
      | some wd =>
        by_cases hv : wd.version_major = 2
        · simp [hlu, hv]
        · simp [hlu, hv]
  · intro wd hdisp hlu hv
    unfold msgToModel
    rw [hdisp, hlu]
    simp [hv]

/-- C10 witness: a display-data message with a version-2 widget payload maps
to the manager's model for its model id. -/
theorem msgToModel_widget_conditions_witness :
    msgToModel
      ⟨"display_data".toList, [(WIDGET_MSG, ⟨2, "model-1".toList⟩)]⟩
      (fun s => s) = some "model-1".toList :=
  (msgToModel_widget_conditions
      ⟨"display_data".toList, [(WIDGET_MSG, ⟨2, "model-1".toList⟩)]⟩
      (fun s => s)).2
    ⟨2, "model-1".toList⟩ (by decide) (by simp [List.lookup]) rfl

/-! ### Claims C4 and C5: _kernelHeartbeat (JupyterCon.js lines 91-106) -/

/-- Observable events of one `_kernelHeartbeat` tick. `schedule delayMs arg`
records `setTimeout(this._kernelHeartbeat, delayMs)`: `arg` is the interval
argument passed to the follow-up tick (`none` = no argument, so the follow-up
runs with the default parameter value). -/
inductive HBEv where
  | getModelAttempt
  | logKernelDied
  | startKernelAttempt
  | setKernel
  | generateWidgets
  | schedule (delayMs : Nat) (arg : Option Nat)
deriving DecidableEq

/-- Default value of the `seconds_between_check` parameter of
`_kernelHeartbeat` (line 91). -/
def defaultSecondsBetweenCheck : Nat := 5

/-- One `_kernelHeartbeat` tick (lines 91-106), with the two awaited fallible
operations as oracles: `gkm` is the outcome of `await this.getKernelModel()`
and `sk` the outcome of `await this.startKernel()` (consulted only on the
dead-kernel path). The `try` body attempts the model; the `catch` logs, starts
a replacement kernel (whose failure propagates out of the tick), sets it on the
manager and regenerates widgets; the `finally` always runs
`setTimeout(this._kernelHeartbeat, seconds_between_check * 1000)` — note the
callback is passed without an interval argument. Returns the event trace and
the tick's own outcome. -/
def kernelHeartbeat (seconds_between_check : Nat)
    (gkm : Except (List Char) Unit) (sk : Except (List Char) Unit) :
    List HBEv × Except (List Char) Unit :=
  match gkm with
  | .ok _ =>
    ([.getModelAttempt, .schedule (seconds_between_check * 1000) none], .ok ())
  | .error _ =>
    match sk with
    | .ok _ =>
      ([.getModelAttempt, .logKernelDied, .startKernelAttempt, .setKernel,
        .generateWidgets, .schedule (seconds_between_check * 1000) none], .ok ())
    | .error e =>
      ([.getModelAttempt, .logKernelDied, .startKernelAttempt,
        .schedule (seconds_between_check * 1000) none], .error e)

/-- The `schedule` events of a trace, with their delay and interval argument. -/
def scheduleEvents (l : List HBEv) : List (Nat × Option Nat) :=
  l.filterMap fun ev =>
    match ev with
    | .schedule d a => some (d, a)
    | _ => none

/-- C4: every `_kernelHeartbeat` tick emits exactly one reschedule — never
zero, never two — on all three paths (liveness check succeeds, dead kernel
with successful replacement, replacement start throws). -/
theorem kernelHeartbeat_exactly_one_reschedule
    (seconds_between_check : Nat)
    (gkm : Except (List Char) Unit) (sk : Except (List Char) Unit) :
    (scheduleEvents (kernelHeartbeat seconds_between_check gkm sk).1).length = 1 := by
  cases gkm with
  | ok u => cases u; rfl
  | error e =>
    cases sk with
    | ok u => cases u; rfl
    | error e2 => rfl

/-- C5: on every path, a tick running with interval `seconds_between_check`
schedules exactly one follow-up tick after `seconds_between_check * 1000`
milliseconds — the same interval the tick itself ran with — and passes the
follow-up no interval argument, so every rescheduled tick runs with the fixed
default interval (the interval is never adapted). -/
theorem kernelHeartbeat_reschedules_after_same_interval
    (seconds_between_check : Nat)
    (gkm : Except (List Char) Unit) (sk : Except (List Char) Unit) :
    scheduleEvents (kernelHeartbeat seconds_between_check gkm sk).1 =
      [(seconds_between_check * 1000, none)] := by
  cases gkm with
  | ok u => cases u; rfl
  | error e =>
    cases sk with
    | ok u => cases u; rfl
    | error e2 => rfl

/-! ### Claim C6: getOrStartKernel (JupyterCon.js lines 116-133) -/

/-- The remote-reaching calls `getOrStartKernel` can make. -/
inductive GOKCall where
  | getKernelCall
  | startKernelCall
deriving DecidableEq

/-- `getOrStartKernel` (lines 116-133) with its awaited fallible operations as
oracles: `kernelField` is `this.kernel` (the in-memory handle, `null` = `none`),
`getK` the outcome of `await this.getKernel()` (cache-based reattachment) and
`startK` the outcome of `await this.startKernel()`. Returns the overall outcome
and the list of remote-reaching calls attempted, in order. -/
def getOrStartKernel (kernelField : Option (List Char))
    (getK : Except (List Char) (List Char))
    (startK : Except (List Char) (List Char)) :
    Except (List Char) (List Char) × List GOKCall :=
  match kernelField with
  | some k => (.ok k, [])
  | none =>
    match getK with
    | .ok k => (.ok k, [.getKernelCall])
    | .error _ =>
      match startK with
      | .ok k => (.ok k, [.getKernelCall, .startKernelCall])
      | .error e => (.error e, [.getKernelCall, .startKernelCall])

/-- C6: `getOrStartKernel` (1) returns the in-memory handle without any remote
call when one is held; (2) otherwise attempts cache-based reattachment first
and returns its kernel on success without falling back; (3) when reattachment
throws, for any reason, it falls back to `startKernel` and returns that
outcome — kernel or propagated error — unchanged; (4) in every state the call
either produces a kernel or propagates the fallback's error, never reporting
success without a kernel. -/
theorem getOrStartKernel_fallback_chain_total :
    (∀ k getK startK, getOrStartKernel (some k) getK startK = (.ok k, [])) ∧
    (∀ k startK,
      getOrStartKernel none (.ok k) startK = (.ok k, [.getKernelCall])) ∧
    (∀ e startK,
      getOrStartKernel none (.error e) startK =
        (startK, [.getKernelCall, .startKernelCall])) ∧
    (∀ kernelField getK startK,
      (∃ k, (getOrStartKernel kernelField getK startK).1 = .ok k) ∨
      (∃ e, (getOrStartKernel kernelField getK startK).1 = .error e ∧
        startK = .error e)) := by
  refine ⟨fun k getK startK => rfl, fun k startK => rfl, ?_, ?_⟩
  · intro e startK
    cases startK <;> rfl
  · intro kernelField getK startK
    cases kernelField with
    | some k => exact Or.inl ⟨k, rfl⟩
    | none =>
      cases getK with
      | ok k => exact Or.inl ⟨k, rfl⟩
      | error e =>
        cases startK with
        | ok k => exact Or.inl ⟨k, rfl⟩
        | error e2 => exact Or.inr ⟨e2, rfl, rfl⟩

/-! ### Claim C7: the debounced run() (JupyterCon.js lines 46-49) -/

/-- Debounce wait in milliseconds chosen by the constructor (line 46). -/
def runDebounceWaitMs : Nat := 500

/-- The `leading` flag chosen by the constructor (line 47). -/
def runDebounceLeading : Bool := true

/-- The `trailing` flag chosen by the constructor (line 48). -/
def runDebounceTrailing : Bool := false

/-- Modelled from the spec: the behavior of the external `lodash.debounce`
dependency with `leading: true, trailing: false` (the library is not under
src/; the constructor, lines 46-49, only selects wait = 500 ms and those two
flags). Per the spec, the leading call executes the body immediately and
trailing calls within the window are dropped — never queued or deferred; a
call executes exactly when it is the first call or at least `wait` ms separate
it from the previous call. The accumulator carries the previous call's time. -/
def debounceRunAux (wait : Nat) : Option Nat → List Nat → Nat
  | _, [] => 0
  | none, t :: ts => 1 + debounceRunAux wait (some t) ts
  | some tp, t :: ts =>
    (if wait ≤ t - tp then 1 else 0) + debounceRunAux wait (some t) ts

/-- Number of executions of the debounced body for nondecreasing call times
(in ms), under the model of `debounceRunAux`. -/
def debounceRunCount (wait : Nat) (calls : List Nat) : Nat :=
  debounceRunAux wait none calls

/-- C7: two `run()` calls within the 500 ms debounce window execute the body
exactly once (the leading call wins, the trailing call is dropped); two calls
separated by more than the window execute it twice. -/
theorem debounced_run_window (t1 t2 : Nat) (hle : t1 ≤ t2) :
    (t2 - t1 < runDebounceWaitMs →
      debounceRunCount runDebounceWaitMs [t1, t2] = 1) ∧
    (runDebounceWaitMs < t2 - t1 →
      debounceRunCount runDebounceWaitMs [t1, t2] = 2) := by
  have hw : runDebounceWaitMs = 500 := rfl
  constructor <;> intro h <;>
    simp only [debounceRunCount, debounceRunAux, hw] at h ⊢ <;>
    split <;> omega

/-- C7 witness: calls at 0 and 100 ms execute once; calls at 1000 and 2000 ms
execute twice. -/
theorem debounced_run_window_witness :
    debounceRunCount runDebounceWaitMs [0, 100] = 1 ∧
    debounceRunCount runDebounceWaitMs [1000, 2000] = 2 :=
  ⟨(debounced_run_window 0 100 (by decide)).1 (by decide),
   (debounced_run_window 1000 2000 (by decide)).2 (by decide)⟩

/-! ### Claim C9: the body of run() (JupyterCon.js lines 62-64) -/

/-- Effects the body of `run()` could in principle perform. -/
inductive RunEffect where
  | sessionAcquire
  | pageCodeExec
  | serviceContact
  | stateChange
deriving DecidableEq

/-- Statements of the JS method bodies we model: an effectful step or a
`throw` of a string literal. -/
inductive JsStmt where
  | effect (e : RunEffect)
  | throwStr (s : List Char)
deriving DecidableEq

/-- Sequential JS execution of a statement list: a throw aborts the body (no
later statement runs); returns the outcome and the effects performed. -/
def execStmts : List JsStmt → Except (List Char) Unit × List RunEffect
  | [] => (.ok (), [])
  | .throwStr s :: _ => (.error s, [])
  | .effect e :: rest =>
    let r := execStmts rest
    (r.1, e :: r.2)

/-- The body of `run()` (lines 62-64): a single throw statement. -/
def runBody : List JsStmt :=
  [.throwStr "This version of JupyterCon has been modified.".toList]

/-- C9: every invocation of the underlying `run()` body throws the string
"This version of JupyterCon has been modified." having performed no effect:
no session acquired, no page code executed, no service contacted, no state
changed. -/
theorem run_throws_modified_before_effects :
    execStmts runBody =
      (.error "This version of JupyterCon has been modified.".toList, []) := rfl

/-! ### Claims C1 and C8: startServer / startKernel
(JupyterCon.js lines 162-202) -/

/-- Observable events of `startServer` and `startKernel`. -/
inductive SKEv where
  | binderStartRequest
  | persistServerParams
  | getSpecsAttempt
  | startNewAttempt
  | persistKernelId
  | logKernelInitError
deriving DecidableEq

/-- Synchronous prefix of `startKernel()` when no `serverSettings` argument is
supplied, under JS async semantics (an async call runs synchronously until its
first await, then control returns to the caller). Line 181 reads
`serverSettings = this.startServer()` with no `await`: `startServer` (lines
162-172) runs just far enough to issue `this.binder.startServer()` (line 163,
event `binderStartRequest`) and suspends on that await — its
`localStorage.serverParams` write (line 170, event `persistServerParams`) can
only run after the binder call resolves, strictly after this prefix. Control
then returns to `startKernel`, which reaches
`await Kernel.getSpecs(serverSettings)` (line 186, event `getSpecsAttempt`)
and suspends, ending the prefix. -/
def startKernelNoServerSyncEvts : List SKEv :=
  [.binderStartRequest, .getSpecsAttempt]

/-- C1: evaluation of the no-server path of `startKernel` at the failing
input: the kernel-spec query is attempted inside the synchronous prefix while
the persist of the connection parameters is not — so in every schedule the
session start is attempted before the cache write completes, contradicting the
claimed ordering. -/
theorem startKernel_getSpecs_attempted_before_persist :
    SKEv.getSpecsAttempt ∈ startKernelNoServerSyncEvts ∧
    SKEv.persistServerParams ∉ startKernelNoServerSyncEvts := by decide

/-- The JS value bound to `serverSettings` inside `startKernel`: either real
connection settings (an argument was supplied), or — because line 181 does not
await — the still-pending promise returned by `this.startServer()`, tagged
with the outcome that promise will eventually settle with. -/
inductive SettingsVal where
  | settings (s : List Char)
  | pendingServerStart (outcome : Except (List Char) (List Char))

/-- `startKernel` (lines 178-202) with its awaited operations as oracles.
`serverStart` is the outcome `this.startServer()` eventually settles with;
since the call is not awaited, on the no-argument path the value bound to
`serverSettings` is the pending promise itself, and a rejection of
`serverStart` never reaches this function's catch. `getSpecs` and `startNew`
give the outcomes of `Kernel.getSpecs(serverSettings)` and
`Kernel.startNew(...)` as functions of the settings value they receive. The
catch block (lines 196-200) logs and rethrows the caught error unchanged. The
trace covers `startKernel`'s own body plus the synchronous part of
`startServer`; the detached continuation of the unawaited `startServer` (the
persist) is not part of it. -/
def startKernel (provided : Option (List Char))
    (serverStart : Except (List Char) (List Char))
    (getSpecs : SettingsVal → Except (List Char) (List Char))
    (startNew : List Char → SettingsVal → Except (List Char) (List Char)) :
    Except (List Char) (List Char) × List SKEv :=
  let sv : SettingsVal :=
    match provided with
    | some s => .settings s
    | none => .pendingServerStart serverStart
  let pre : List SKEv :=
    match provided with
    | some _ => []
    | none => [.binderStartRequest]
  match getSpecs sv with
  | .error e => (.error e, pre ++ [.getSpecsAttempt, .logKernelInitError])
  | .ok specDefault =>
    match startNew specDefault sv with
    | .error e =>
      (.error e, pre ++ [.getSpecsAttempt, .startNewAttempt, .logKernelInitError])
    | .ok kernelId =>
      (.ok kernelId, pre ++ [.getSpecsAttempt, .startNewAttempt, .persistKernelId])

/-- C8: evaluation at the failing input: no server connection is supplied and
`this.startServer()` rejects with a provisioning error, while
`Kernel.getSpecs`, handed the pending promise instead of settings, fails with
its own TypeError. The call logs and rethrows the TypeError — not the
provisioning error, whose rejection never reaches the catch — so the error
that propagates is not the provisioning failure. -/
theorem startKernel_server_error_not_rethrown :
    startKernel none (.error "Failed to connect to event stream".toList)
        (fun sv =>
          match sv with
          | .settings _ => .ok "python3".toList
          | .pendingServerStart _ => .error "TypeError: url of undefined".toList)
        (fun _ _ => .ok "kernel-1".toList) =
      (.error "TypeError: url of undefined".toList,
        [.binderStartRequest, .getSpecsAttempt, .logKernelInitError]) ∧
    "TypeError: url of undefined".toList ≠
      "Failed to connect to event stream".toList :=
  ⟨rfl, by decide⟩

end NbInteract
